import Mathlib

/-!
Verification of the score-to-square winner-resolution logic of the
premier-squares web application.  The definitions below shallowly embed the
functions of `src/utils/coloringLogic.js` and the closures of the two
`Squares` component variants found in the unnamed source part_004; machine
numbers are modelled as `Int` (JS `%` on integers is the truncating
remainder `Int.tmod`), missing or `undefined`/`null` line-score slots as
`Option Int`, and fallible JS evaluation as `Except`.
-/

/-- A team record of a game snapshot: `name`, running `score`, and the
per-period `lineScore`.  A slot holding `undefined`/`null` is `none`; an
index beyond the populated length also reads as `none`. -/
structure Team where
  name : String
  score : Int
  lineScore : List (Option Int)
  deriving Repr, DecidableEq

/-- A normalized game snapshot as consumed by the resolver: two teams, the
current period (an integer that is at least 0 per the data model), and the
overall game-status token. -/
structure GameData where
  homeTeam : Team
  awayTeam : Team
  currentPeriod : Nat
  gameStatus : String
  deriving Repr, DecidableEq

/-- The `{home, away}` pair returned by the cumulative-score helpers. -/
structure Scores where
  home : Int
  away : Int
  deriving Repr, DecidableEq

/-- `getLastDigit` from coloringLogic.js: `num % 10`, with the source's
`result === -0 ? 0 : result` branch.  JS `%` on integers is the truncating
remainder `Int.tmod`; JS `===` identifies `0` with `-0`, so the branch fires
exactly when the remainder is zero, and `Int` has a single zero, so the
branch returns that zero unchanged. -/
def getLastDigit (num : Int) : Int :=
  let result := Int.tmod num 10
  if result = 0 then 0 else result

/-- One read of the loop body `gameData.<side>.lineScore[i] || 0`: an
out-of-range index or an `undefined`/`null` slot gives `0`; a `0` entry is
falsy in JS, and `0 || 0` is again `0`, so `Option.getD 0` is exact. -/
def lineScoreAt (l : List (Option Int)) (i : Nat) : Int :=
  (l.getD i none).getD 0

/-- The accumulation `for (let i = 0; i < period; i++) total += lineScore[i] || 0`
of `getCumulativeScores`, for one side. -/
def sumThrough (l : List (Option Int)) : Nat → Int
  | 0 => 0
  | n + 1 => sumThrough l n + lineScoreAt l n

/-- `getCumulativeScores` from coloringLogic.js: sums each side's
`lineScore[0 .. period-1]`.  The closures of the same name inside both
`Squares` components have the identical loop over their captured
`gameData`, so this single definition embeds all three occurrences. -/
def getCumulativeScores (gameData : GameData) (period : Nat) : Scores :=
  { home := sumThrough gameData.homeTeam.lineScore period
    away := sumThrough gameData.awayTeam.lineScore period }

/-- The result record of the stateless `getSquareInfo` of coloringLogic.js. -/
structure SquareInfo where
  isColored : Bool
  quarters : List Nat
  quarterText : Option String
  deriving Repr, DecidableEq

/-- The match test inside the `getSquareInfo` loop body of coloringLogic.js:
the last digits of the cumulative scores through `period` equal the square's
two digits. -/
def matchesPeriod (gameData : GameData) (homeDigit awayDigit : Int)
    (period : Nat) : Bool :=
  let scores := getCumulativeScores gameData period
  getLastDigit scores.home == homeDigit && getLastDigit scores.away == awayDigit

/-- The periods `1, 2, ..., currentPeriod` in the order the
`for (let period = 1; period <= currentPeriod; period++)` loop visits them. -/
def periodRange (currentPeriod : Nat) : List Nat :=
  (List.range currentPeriod).map (· + 1)

/-- The `winningQuarters` array accumulated by `getSquareInfo` of
coloringLogic.js: the visited periods whose digit pair matches, in visit
order. -/
def winningQuarters (gameData : GameData) (homeDigit awayDigit : Int) :
    List Nat :=
  (periodRange gameData.currentPeriod).filter
    (matchesPeriod gameData homeDigit awayDigit)

/-- One display token `Q<q>` of the `quarterText` label. -/
def quarterLabel (q : Nat) : String :=
  "Q" ++ toString q

/-- The `winningQuarters.map(q => ...).join(',')` label. -/
def quartersText (ws : List Nat) : String :=
  String.intercalate "," (ws.map quarterLabel)

/-- `getSquareInfo` from coloringLogic.js (the stateless module resolver). -/
def getSquareInfo (gameData : GameData) (homeDigit awayDigit : Int) :
    SquareInfo :=
  let ws := winningQuarters gameData homeDigit awayDigit
  if ws.length > 0 then
    { isColored := true
      quarters := ws
      quarterText := some (quartersText ws) }
  else
    { isColored := false, quarters := [], quarterText := none }

/-- One entry of the `getAllWinningSquares` output:
`{ homeDigit, awayDigit, ...squareInfo }`. -/
structure WinningSquare where
  homeDigit : Nat
  awayDigit : Nat
  info : SquareInfo
  deriving Repr, DecidableEq

/-- `getAllWinningSquares` from coloringLogic.js: the two nested
`for (0..9)` loops, home digit outer, keeping the squares whose info has
`isColored` set. -/
def getAllWinningSquares (gameData : GameData) : List WinningSquare :=
  (List.range 10).flatMap fun (homeDigit : Nat) =>
    (List.range 10).filterMap fun (awayDigit : Nat) =>
      let squareInfo := getSquareInfo gameData (homeDigit : Int) (awayDigit : Int)
      if squareInfo.isColored then
        some { homeDigit := homeDigit, awayDigit := awayDigit, info := squareInfo }
      else
        none

/-- The whole-grid sweep with the two loops interchanged (away digit as the
outer loop), used to state that the loop order does not change the set of
returned squares. -/
def getAllWinningSquaresSwapped (gameData : GameData) : List WinningSquare :=
  (List.range 10).flatMap fun (awayDigit : Nat) =>
    (List.range 10).filterMap fun (homeDigit : Nat) =>
      let squareInfo := getSquareInfo gameData (homeDigit : Int) (awayDigit : Int)
      if squareInfo.isColored then
        some { homeDigit := homeDigit, awayDigit := awayDigit, info := squareInfo }
      else
        none

/-- `getLastDigit` as defined inside both `Squares` component variants of
part_004 (lines 148 and 635): plain `num % 10`, with no negative-zero
branch.  On the `Int` model this coincides with the module version because
`Int` has a single zero. -/
def getLastDigitComp (num : Int) : Int :=
  Int.tmod num 10

/-- The match test inside the `getSquareInfo` loops of the two `Squares`
components, which call the components' own `getLastDigit` closure. -/
def matchesPeriodComp (gameData : GameData) (homeDigit awayDigit : Int)
    (period : Nat) : Bool :=
  let scores := getCumulativeScores gameData period
  getLastDigitComp scores.home == homeDigit &&
    getLastDigitComp scores.away == awayDigit

/-- `isQuarterFinal` of the older `Squares` component variant (part_004
lines 180-186): past periods are final, and so is everything once the game
status is `final` or `complete`; no halftime rule and no overtime
exception. -/
def isQuarterFinalLegacy (gameData : GameData) (quarter : Nat) : Bool :=
  decide (gameData.currentPeriod > quarter) ||
    gameData.gameStatus == "final" || gameData.gameStatus == "complete"

/-- `isQuarterFinal` of the current grid `Squares` component (part_004
lines 667-676): a quarter is final when play has moved past it — unless it
is quarter 4, the game is in overtime, and the status is not
`STATUS_FINAL` — or the status is `STATUS_FINAL`, or it is quarter 2 at
`STATUS_HALFTIME`. -/
def isQuarterFinalGrid (gameData : GameData) (quarter : Nat) : Bool :=
  (decide (gameData.currentPeriod > quarter) &&
      !(quarter == 4 && decide (gameData.currentPeriod > 4) &&
        gameData.gameStatus != "STATUS_FINAL")) ||
    gameData.gameStatus == "STATUS_FINAL" ||
    (quarter == 2 && gameData.gameStatus == "STATUS_HALFTIME")

/-- The result record returned by the component `getSquareInfo` closures,
which additionally partition the winning quarters by finality. -/
structure SquareInfoFull where
  isColored : Bool
  quarters : List Nat
  finalQuarters : List Nat
  ongoingQuarters : List Nat
  quarterText : Option String
  hasOngoingQuarter : Bool
  deriving Repr, DecidableEq

/-- The `winningQuarters` array accumulated by either component
`getSquareInfo` closure (their loops are identical). -/
def winningQuartersComp (gameData : GameData) (homeDigit awayDigit : Int) :
    List Nat :=
  (periodRange gameData.currentPeriod).filter
    (matchesPeriodComp gameData homeDigit awayDigit)

/-- `getSquareInfo` of the older `Squares` component (part_004 lines
189-225).  The single loop pushes each matching period into
`winningQuarters` and then into `finalQuarters` or `ongoingQuarters`
according to `isQuarterFinal`; accumulating the matches first and filtering
by the same predicate produces the identical three lists. -/
def getSquareInfoLegacy (gameData : GameData) (homeDigit awayDigit : Int) :
    SquareInfoFull :=
  let ws := winningQuartersComp gameData homeDigit awayDigit
  let fq := ws.filter (isQuarterFinalLegacy gameData)
  let oq := ws.filter fun p => !isQuarterFinalLegacy gameData p
  if ws.length > 0 then
    { isColored := true
      quarters := ws
      finalQuarters := fq
      ongoingQuarters := oq
      quarterText := some (quartersText ws)
      hasOngoingQuarter := oq.length > 0 }
  else
    { isColored := false, quarters := [], finalQuarters := []
      ongoingQuarters := [], quarterText := none, hasOngoingQuarter := false }

/-- `getSquareInfo` of the current grid `Squares` component (part_004 lines
698-734); identical to the older closure except that it classifies with the
grid `isQuarterFinal`. -/
def getSquareInfoGrid (gameData : GameData) (homeDigit awayDigit : Int) :
    SquareInfoFull :=
  let ws := winningQuartersComp gameData homeDigit awayDigit
  let fq := ws.filter (isQuarterFinalGrid gameData)
  let oq := ws.filter fun p => !isQuarterFinalGrid gameData p
  if ws.length > 0 then
    { isColored := true
      quarters := ws
      finalQuarters := fq
      ongoingQuarters := oq
      quarterText := some (quartersText ws)
      hasOngoingQuarter := oq.length > 0 }
  else
    { isColored := false, quarters := [], finalQuarters := []
      ongoingQuarters := [], quarterText := none, hasOngoingQuarter := false }

/-!
`validateGameData` receives an arbitrary JavaScript value, so for it we
embed a small universe of JS values.  Numbers are modelled as `Int` (the
function only inspects `typeof` and the sign of `currentPeriod`, never a
fractional part). -/

/-- A JavaScript value, as far as `validateGameData` can observe one. -/
inductive JSValue where
  | undefined : JSValue
  | null : JSValue
  | boolean : Bool → JSValue
  | number : Int → JSValue
  | string : String → JSValue
  | array : List JSValue → JSValue
  | object : List (String × JSValue) → JSValue

/-- JS truthiness, as tested by `if (!gameData)`.  The falsy values among
those representable here are `undefined`, `null`, `false`, `0` and the
empty string. -/
def truthy : JSValue → Bool
  | .undefined => false
  | .null => false
  | .boolean b => b
  | .number n => n != 0
  | .string s => s != ""
  | .array _ => true
  | .object _ => true

/-- The JS `typeof` operator on the modelled values. -/
def typeofJS : JSValue → String
  | .undefined => "undefined"
  | .boolean _ => "boolean"
  | .number _ => "number"
  | .string _ => "string"
  | .null => "object"
  | .array _ => "object"
  | .object _ => "object"

/-- Whether a value supports the `in` operator, i.e. is an object (arrays
included).  On anything else `k in v` throws a TypeError. -/
def jsCanIn : JSValue → Bool
  | .array _ => true
  | .object _ => true
  | _ => false

/-- Property presence as a total Boolean: what `k in v` answers on the
values where it does not throw.  Of an array's properties only `length`
matters here — `validateGameData` never asks an array for a numeric
index. -/
def hasPropB : JSValue → String → Bool
  | .object fields, k => fields.any fun f => f.1 == k
  | .array _, k => k == "length"
  | _, _ => false

/-- The JS `in` operator itself: `hasPropB` where it is defined, a
TypeError elsewhere. -/
def hasProp (v : JSValue) (k : String) : Except String Bool :=
  if jsCanIn v then .ok (hasPropB v k) else .error "TypeError"

/-- Property read `v[k]` as `validateGameData` performs it: on an object
the stored value (or `undefined` when absent), `undefined` otherwise.  The
code only reads a property of `gameData` after `field in gameData`
succeeded, so the throwing reads on `null`/`undefined` are never
reached. -/
def getProp : JSValue → String → JSValue
  | .object fields, k => ((fields.find? fun f => f.1 == k).map Prod.snd).getD .undefined
  | _, _ => .undefined

/-- `Array.isArray`. -/
def isArrayJS : JSValue → Bool
  | .array _ => true
  | _ => false

/-- `gameData.currentPeriod < 0`; the code evaluates this only after
`typeof` established a number, so the non-number case is arbitrary. -/
def numLtZero : JSValue → Bool
  | .number n => decide (n < 0)
  | _ => false

/-- The `for (const field of fields) { if (!(field in v)) return false; }`
loops of `validateGameData`: stop with `false` at the first missing field,
propagate the TypeError of `in` on a non-object. -/
def checkFields (v : JSValue) : List String → Except String Bool
  | [] => .ok true
  | f :: rest =>
    match hasProp v f with
    | .error e => .error e
    | .ok true => checkFields v rest
    | .ok false => .ok false

/-- `validateGameData` from coloringLogic.js, with JS exceptions made
explicit: the falsiness guard, the three required top-level fields, the
three required fields of each team (home first), then the type checks on
`currentPeriod`, the two scores and the two line scores, in source
order. -/
def validateGameData (gameData : JSValue) : Except String Bool :=
  if !truthy gameData then .ok false
  else
    match checkFields gameData ["homeTeam", "awayTeam", "currentPeriod"] with
    | .error e => .error e
    | .ok false => .ok false
    | .ok true =>
      match checkFields (getProp gameData "homeTeam")
          ["name", "score", "lineScore"] with
      | .error e => .error e
      | .ok false => .ok false
      | .ok true =>
        match checkFields (getProp gameData "awayTeam")
            ["name", "score", "lineScore"] with
        | .error e => .error e
        | .ok false => .ok false
        | .ok true =>
          if typeofJS (getProp gameData "currentPeriod") != "number" ||
              numLtZero (getProp gameData "currentPeriod") then .ok false
          else if typeofJS (getProp (getProp gameData "homeTeam") "score")
                != "number" ||
              typeofJS (getProp (getProp gameData "awayTeam") "score")
                != "number" then .ok false
          else if !isArrayJS (getProp (getProp gameData "homeTeam") "lineScore") ||
              !isArrayJS (getProp (getProp gameData "awayTeam") "lineScore") then
            .ok false
          else .ok true

/-- The validity condition the claim describes: all required fields present
and the five type checks satisfied.  Transcribed from the claim's wording
as the comparison target for `validateGameData`'s Boolean result. -/
def specValid (g : JSValue) : Bool :=
  hasPropB g "homeTeam" && hasPropB g "awayTeam" && hasPropB g "currentPeriod" &&
  hasPropB (getProp g "homeTeam") "name" &&
  hasPropB (getProp g "homeTeam") "score" &&
  hasPropB (getProp g "homeTeam") "lineScore" &&
  hasPropB (getProp g "awayTeam") "name" &&
  hasPropB (getProp g "awayTeam") "score" &&
  hasPropB (getProp g "awayTeam") "lineScore" &&
  typeofJS (getProp g "currentPeriod") == "number" &&
  !numLtZero (getProp g "currentPeriod") &&
  typeofJS (getProp (getProp g "homeTeam") "score") == "number" &&
  typeofJS (getProp (getProp g "awayTeam") "score") == "number" &&
  isArrayJS (getProp (getProp g "homeTeam") "lineScore") &&
  isArrayJS (getProp (getProp g "awayTeam") "lineScore")

/-- The exact circumstances in which `validateGameData` throws: a truthy
candidate that the `in` operator rejects, or — all three top-level fields
being present — a `homeTeam` value the `in` operator rejects, or (the
`homeTeam` checks all passing) an `awayTeam` value the `in` operator
rejects. -/
def validateThrows (g : JSValue) : Bool :=
  truthy g &&
    (!jsCanIn g ||
      (hasPropB g "homeTeam" && hasPropB g "awayTeam" &&
        hasPropB g "currentPeriod" &&
        (!jsCanIn (getProp g "homeTeam") ||
          (hasPropB (getProp g "homeTeam") "name" &&
            hasPropB (getProp g "homeTeam") "score" &&
            hasPropB (getProp g "homeTeam") "lineScore" &&
            !jsCanIn (getProp g "awayTeam")))))

/-!  Concrete snapshots used to instantiate the theorems. -/

/-- The spec's recurring-score example: home line scores `[7, 7, 3, 7]`,
away `[0, 7, 7, 3]`, through period 4 — the cumulative score is 14-7 after
Q2 and 24-17 after Q4, so the digit pair (4, 7) recurs. -/
def exampleGame : GameData :=
  { homeTeam := { name := "Home", score := 24
                  lineScore := [some 7, some 7, some 3, some 7] }
    awayTeam := { name := "Away", score := 17
                  lineScore := [some 0, some 7, some 7, some 3] }
    currentPeriod := 4
    gameStatus := "STATUS_IN_PROGRESS" }

/-- The same game taken to a scoreless overtime period with a non-final
status: `currentPeriod = 5`, so period 4 hits the overtime exception. -/
def overtimeGame : GameData :=
  { homeTeam := { name := "Home", score := 24
                  lineScore := [some 7, some 7, some 3, some 7, some 0] }
    awayTeam := { name := "Away", score := 17
                  lineScore := [some 0, some 7, some 7, some 3, some 0] }
    currentPeriod := 5
    gameStatus := "STATUS_IN_PROGRESS" }

/-- A pre-game snapshot: `currentPeriod = 0`, empty line scores. -/
def zeroGame : GameData :=
  { homeTeam := { name := "Home", score := 0, lineScore := [] }
    awayTeam := { name := "Away", score := 0, lineScore := [] }
    currentPeriod := 0
    gameStatus := "STATUS_SCHEDULED" }

/-!  ## Supporting lemmas -/

/-- The source's negative-zero branch is the identity on `Int`, so
`getLastDigit` is exactly the truncating remainder. -/
theorem getLastDigit_eq_tmod (n : Int) : getLastDigit n = Int.tmod n 10 := by
  unfold getLastDigit
  by_cases h : Int.tmod n 10 = 0 <;> simp [h]

/-- Membership in the visited period list. -/
theorem mem_periodRange {p n : Nat} : p ∈ periodRange n ↔ 1 ≤ p ∧ p ≤ n := by
  unfold periodRange
  simp only [List.mem_map, List.mem_range]
  constructor
  · rintro ⟨i, hi, rfl⟩
    omega
  · rintro ⟨h1, h2⟩
    exact ⟨p - 1, by omega, by omega⟩

/-- The loop visits the periods in strictly increasing order. -/
theorem periodRange_sorted (n : Nat) : List.Sorted (· < ·) (periodRange n) :=
  List.Pairwise.map _ (fun _ _ h => by omega) (List.pairwise_lt_range n)

theorem winningQuarters_sorted (g : GameData) (hd ad : Int) :
    List.Sorted (· < ·) (winningQuarters g hd ad) :=
  List.Pairwise.filter _ (periodRange_sorted _)

/-- The digit-match test, spelt out. -/
theorem matchesPeriod_eq_true {g : GameData} {hd ad : Int} {p : Nat} :
    matchesPeriod g hd ad p = true ↔
      getLastDigit (getCumulativeScores g p).home = hd ∧
        getLastDigit (getCumulativeScores g p).away = ad := by
  unfold matchesPeriod
  simp [Bool.and_eq_true, beq_iff_eq]

/-- Membership in the accumulated `winningQuarters`. -/
theorem mem_winningQuarters {g : GameData} {hd ad : Int} {p : Nat} :
    p ∈ winningQuarters g hd ad ↔
      1 ≤ p ∧ p ≤ g.currentPeriod ∧
        getLastDigit (getCumulativeScores g p).home = hd ∧
        getLastDigit (getCumulativeScores g p).away = ad := by
  unfold winningQuarters
  rw [List.mem_filter, mem_periodRange, matchesPeriod_eq_true]
  tauto

/-- Both branches of `getSquareInfo` return the accumulated list itself as
`quarters` (in the no-match branch that list is `[]`). -/
theorem getSquareInfo_quarters (g : GameData) (hd ad : Int) :
    (getSquareInfo g hd ad).quarters = winningQuarters g hd ad := by
  unfold getSquareInfo
  by_cases h : (winningQuarters g hd ad).length > 0
  · simp [h]
  · have hnil : winningQuarters g hd ad = [] := by
      simpa [List.length_eq_zero] using h
    simp [h, hnil]

theorem sumThrough_eq_sum (l : List (Option Int)) (p : Nat) :
    sumThrough l p = ((List.range p).map (lineScoreAt l)).sum := by
  induction p with
  | zero => rfl
  | succ n ih =>
    rw [sumThrough, List.range_succ, List.map_append, List.sum_append]
    simp [ih]

theorem lineScoreAt_nonneg {l : List (Option Int)}
    (h : ∀ o ∈ l, o ≠ none ∧ 0 ≤ o.getD 0) (i : Nat) :
    0 ≤ lineScoreAt l i := by
  unfold lineScoreAt
  rw [List.getD_eq_getElem?_getD]
  cases hl : l[i]? with
  | none => simp
  | some o =>
    have hm : o ∈ l := by
      obtain ⟨hlen, rfl⟩ := List.getElem?_eq_some_iff.mp hl
      exact List.getElem_mem hlen
    simpa using (h o hm).2

theorem sumThrough_mono {l : List (Option Int)}
    (h : ∀ i, 0 ≤ lineScoreAt l i) {p1 p2 : Nat} (hle : p1 ≤ p2) :
    sumThrough l p1 ≤ sumThrough l p2 := by
  induction p2 with
  | zero =>
    have : p1 = 0 := by omega
    simp [this]
  | succ n ih =>
    rcases Nat.lt_or_ge p1 (n + 1) with h1 | h2
    · calc sumThrough l p1 ≤ sumThrough l n := ih (by omega)
        _ ≤ sumThrough l n + lineScoreAt l n := by have := h n; omega
        _ = sumThrough l (n + 1) := rfl
    · have : p1 = n + 1 := by omega
      simp [this]

/-!  ## Claim theorems -/

/-- C3: `getLastDigit` computes the truncating remainder by ten, so for a
negative argument the result carries the argument's sign — in particular
`getLastDigit (-123) = -3` — and the source's `-0` normalization is the
identity on the single zero of `Int`, as witnessed by a negative multiple
of ten mapping to `0`. -/
theorem lastDigit_is_truncating_mod :
    (∀ n : Int, getLastDigit n = Int.tmod n 10) ∧
      getLastDigit (-123) = -3 ∧ getLastDigit (-120) = 0 :=
  ⟨getLastDigit_eq_tmod, by decide, by decide⟩

/-- C4: for every snapshot and period count, `getCumulativeScores` returns
for each side the sum of `lineScore[0 .. throughPeriod-1]`, a slot that is
absent or holds `undefined`/`null` contributing `0`; and through period 0
the cumulative score is `{home := 0, away := 0}`. -/
theorem cumulativeScore_sums_lineScore :
    (∀ (g : GameData) (throughPeriod : Nat),
      getCumulativeScores g throughPeriod =
        { home := ((List.range throughPeriod).map fun i =>
            (g.homeTeam.lineScore.getD i none).getD 0).sum
          away := ((List.range throughPeriod).map fun i =>
            (g.awayTeam.lineScore.getD i none).getD 0).sum }) ∧
      ∀ g : GameData, getCumulativeScores g 0 = { home := 0, away := 0 } := by
  constructor
  · intro g p
    unfold getCumulativeScores
    rw [sumThrough_eq_sum, sumThrough_eq_sum]
    rfl
  · intro g
    rfl

/-- C6: when every line-score entry is a non-negative number, the
cumulative score of each side is monotone in the period. -/
theorem cumulativeScore_monotone :
    ∀ (g : GameData) (p1 p2 : Nat),
      (∀ o ∈ g.homeTeam.lineScore, o ≠ none ∧ 0 ≤ o.getD 0) →
      (∀ o ∈ g.awayTeam.lineScore, o ≠ none ∧ 0 ≤ o.getD 0) →
      p1 < p2 →
      (getCumulativeScores g p1).home ≤ (getCumulativeScores g p2).home ∧
        (getCumulativeScores g p1).away ≤ (getCumulativeScores g p2).away :=
  fun _ _ _ hh ha hlt =>
    ⟨sumThrough_mono (lineScoreAt_nonneg hh) (Nat.le_of_lt hlt),
     sumThrough_mono (lineScoreAt_nonneg ha) (Nat.le_of_lt hlt)⟩

/-- Witness for C6 on the example game, periods 1 < 3. -/
theorem cumulativeScore_monotone_witness :
    (getCumulativeScores exampleGame 1).home ≤
        (getCumulativeScores exampleGame 3).home ∧
      (getCumulativeScores exampleGame 1).away ≤
        (getCumulativeScores exampleGame 3).away :=
  cumulativeScore_monotone exampleGame 1 3 (by decide) (by decide) (by decide)

/-- C1: for every snapshot and coordinate, `getSquareInfo` reports in
`quarters` exactly the periods `1 ≤ p ≤ currentPeriod` whose cumulative
last-digit pair equals the coordinate — all of them when several match —
in ascending order; on the spec's example game (home `[7,7,3,7]`, away
`[0,7,7,3]`, period 4) the coordinate (4, 7) gets `quarters = [2, 4]` and
`quarterText = "Q2,Q4"`. -/
theorem squareInfo_reports_exact_quarters :
    (∀ (g : GameData) (homeDigit awayDigit : Int) (p : Nat),
      (p ∈ (getSquareInfo g homeDigit awayDigit).quarters ↔
        1 ≤ p ∧ p ≤ g.currentPeriod ∧
          getLastDigit (getCumulativeScores g p).home = homeDigit ∧
          getLastDigit (getCumulativeScores g p).away = awayDigit) ∧
      List.Sorted (· < ·) (getSquareInfo g homeDigit awayDigit).quarters) ∧
    (getSquareInfo exampleGame 4 7).quarters = [2, 4] ∧
    (getSquareInfo exampleGame 4 7).quarterText = some "Q2,Q4" := by
  refine ⟨fun g hd ad p => ⟨?_, ?_⟩, ?_, ?_⟩
  · rw [getSquareInfo_quarters]
    exact mem_winningQuarters
  · rw [getSquareInfo_quarters]
    exact winningQuarters_sorted g hd ad
  · decide
  · decide

/-- C8: with `currentPeriod = 0` the resolution loop body never runs: every
coordinate resolves to the uncolored result and the whole-grid sweep is
empty. -/
theorem period0_no_matches :
    ∀ g : GameData, g.currentPeriod = 0 →
      (∀ homeDigit awayDigit : Int,
        getSquareInfo g homeDigit awayDigit =
          { isColored := false, quarters := [], quarterText := none }) ∧
      getAllWinningSquares g = [] := by
  intro g h
  have hfalse : ∀ hd ad : Int, getSquareInfo g hd ad =
      { isColored := false, quarters := [], quarterText := none } := by
    intro hd ad
    have hnil : winningQuarters g hd ad = [] := by
      unfold winningQuarters periodRange
      rw [h]
      rfl
    simp [getSquareInfo, hnil]
  refine ⟨hfalse, ?_⟩
  rw [List.eq_nil_iff_forall_not_mem]
  intro s hs
  unfold getAllWinningSquares at hs
  simp only [List.mem_flatMap, List.mem_filterMap, List.mem_range] at hs
  obtain ⟨hd, _, ad, _, hsome⟩ := hs
  rw [hfalse] at hsome
  simp at hsome

/-- Witness for C8 on the pre-game snapshot. -/
theorem period0_no_matches_witness :
    getSquareInfo zeroGame 3 5 =
        { isColored := false, quarters := [], quarterText := none } ∧
      getAllWinningSquares zeroGame = [] :=
  ⟨(period0_no_matches zeroGame rfl).1 3 5, (period0_no_matches zeroGame rfl).2⟩

/-- The three quarter lists of the grid component's `getSquareInfo`, in
both branches of its final conditional. -/
theorem getSquareInfoGrid_fields (g : GameData) (hd ad : Int) :
    (getSquareInfoGrid g hd ad).quarters = winningQuartersComp g hd ad ∧
      (getSquareInfoGrid g hd ad).finalQuarters =
        (winningQuartersComp g hd ad).filter (isQuarterFinalGrid g) ∧
      (getSquareInfoGrid g hd ad).ongoingQuarters =
        (winningQuartersComp g hd ad).filter
          (fun p => !isQuarterFinalGrid g p) := by
  unfold getSquareInfoGrid
  by_cases h : (winningQuartersComp g hd ad).length > 0
  · simp [h]
  · have hnil : winningQuartersComp g hd ad = [] := by
      simpa [List.length_eq_zero] using h
    simp [h, hnil]

/-- The grid finality predicate, as a proposition. -/
theorem isQuarterFinalGrid_iff {g : GameData} {q : Nat} :
    isQuarterFinalGrid g q = true ↔
      ((g.currentPeriod > q ∨ g.gameStatus = "STATUS_FINAL" ∨
          (q = 2 ∧ g.gameStatus = "STATUS_HALFTIME")) ∧
        ¬(q = 4 ∧ g.currentPeriod > 4 ∧ g.gameStatus ≠ "STATUS_FINAL")) := by
  unfold isQuarterFinalGrid
  simp only [Bool.or_eq_true, Bool.and_eq_true, Bool.not_eq_true',
    Bool.and_eq_false_iff, decide_eq_true_eq, decide_eq_false_iff_not,
    beq_iff_eq, beq_eq_false_iff_ne, bne_iff_ne, bne_eq_false_iff_eq, ne_eq]
  have h24 : q = 2 → q = 4 → False := by omega
  tauto

/-- C2: the grid component's period-finality predicate holds exactly when
the game has moved strictly past the period, or the status is
`STATUS_FINAL`, or it is period 2 at `STATUS_HALFTIME` — except that in
overtime (`currentPeriod > 4`) with a non-final status period 4 is not
final; in particular, at `currentPeriod = 5` with a non-final status a
period-4 match is placed among the ongoing quarters and never among the
final ones. -/
theorem quarterFinality_classification :
    (∀ (g : GameData) (q : Nat),
      isQuarterFinalGrid g q = true ↔
        ((g.currentPeriod > q ∨ g.gameStatus = "STATUS_FINAL" ∨
            (q = 2 ∧ g.gameStatus = "STATUS_HALFTIME")) ∧
          ¬(q = 4 ∧ g.currentPeriod > 4 ∧ g.gameStatus ≠ "STATUS_FINAL"))) ∧
    ∀ (g : GameData) (homeDigit awayDigit : Int),
      g.currentPeriod = 5 → g.gameStatus ≠ "STATUS_FINAL" →
        4 ∉ (getSquareInfoGrid g homeDigit awayDigit).finalQuarters ∧
        (4 ∈ (getSquareInfoGrid g homeDigit awayDigit).ongoingQuarters ↔
          4 ∈ (getSquareInfoGrid g homeDigit awayDigit).quarters) := by
  refine ⟨fun g q => isQuarterFinalGrid_iff, ?_⟩
  intro g hd ad h5 hnf
  obtain ⟨hq, hf, ho⟩ := getSquareInfoGrid_fields g hd ad
  have hnot : ¬ isQuarterFinalGrid g 4 = true := by
    rw [isQuarterFinalGrid_iff]
    rintro ⟨-, hcon⟩
    exact hcon ⟨rfl, by omega, hnf⟩
  have hfin : isQuarterFinalGrid g 4 = false := Bool.eq_false_iff.mpr hnot
  constructor
  · rw [hf, List.mem_filter]
    rintro ⟨-, hc⟩
    rw [hfin] at hc
    cases hc
  · rw [ho, hq]
    simp [List.mem_filter, hfin]

/-- Witness for C2 on the overtime snapshot: period 4 matched coordinate
(4, 7) and is classified as ongoing. -/
theorem quarterFinality_classification_witness :
    4 ∉ (getSquareInfoGrid overtimeGame 4 7).finalQuarters ∧
      (4 ∈ (getSquareInfoGrid overtimeGame 4 7).ongoingQuarters ↔
        4 ∈ (getSquareInfoGrid overtimeGame 4 7).quarters) :=
  quarterFinality_classification.2 overtimeGame 4 7 rfl (by decide)

/-- The flag and label fields of the grid component's `getSquareInfo`, in
both branches of its final conditional. -/
theorem getSquareInfoGrid_flags (g : GameData) (hd ad : Int) :
    ((getSquareInfoGrid g hd ad).isColored =
        decide ((winningQuartersComp g hd ad).length > 0)) ∧
      ((getSquareInfoGrid g hd ad).hasOngoingQuarter =
        decide (((winningQuartersComp g hd ad).filter
          (fun p => !isQuarterFinalGrid g p)).length > 0)) ∧
      ((getSquareInfoGrid g hd ad).quarterText =
        if (winningQuartersComp g hd ad).length > 0 then
          some (quartersText (winningQuartersComp g hd ad))
        else none) := by
  unfold getSquareInfoGrid
  by_cases h : (winningQuartersComp g hd ad).length > 0
  · simp [h]
  · have hnil : winningQuartersComp g hd ad = [] := by
      simpa [List.length_eq_zero] using h
    simp [h, hnil]

theorem winningQuartersComp_sorted (g : GameData) (hd ad : Int) :
    List.Sorted (· < ·) (winningQuartersComp g hd ad) :=
  List.Pairwise.filter _ (periodRange_sorted _)

/-- C9: mutual consistency of the grid resolver's result fields: the color
flag tracks a non-empty quarter list, the ongoing flag a non-empty ongoing
list; the label is absent exactly when no period matched and otherwise
joins the ascending matched periods as Q-tokens; every matched period lies
in exactly one of the two finality lists, those lists contain only matched
periods, and all three lists are ascending. -/
theorem squareInfoGrid_invariants :
    ∀ (g : GameData) (homeDigit awayDigit : Int),
      ((getSquareInfoGrid g homeDigit awayDigit).isColored = true ↔
        (getSquareInfoGrid g homeDigit awayDigit).quarters ≠ []) ∧
      ((getSquareInfoGrid g homeDigit awayDigit).hasOngoingQuarter = true ↔
        (getSquareInfoGrid g homeDigit awayDigit).ongoingQuarters ≠ []) ∧
      ((getSquareInfoGrid g homeDigit awayDigit).quarterText = none ↔
        (getSquareInfoGrid g homeDigit awayDigit).quarters = []) ∧
      ((getSquareInfoGrid g homeDigit awayDigit).quarters ≠ [] →
        (getSquareInfoGrid g homeDigit awayDigit).quarterText =
          some (quartersText
            (getSquareInfoGrid g homeDigit awayDigit).quarters)) ∧
      (∀ p ∈ (getSquareInfoGrid g homeDigit awayDigit).quarters,
        (p ∈ (getSquareInfoGrid g homeDigit awayDigit).finalQuarters ∧
            p ∉ (getSquareInfoGrid g homeDigit awayDigit).ongoingQuarters) ∨
          (p ∈ (getSquareInfoGrid g homeDigit awayDigit).ongoingQuarters ∧
            p ∉ (getSquareInfoGrid g homeDigit awayDigit).finalQuarters)) ∧
      (∀ p ∈ (getSquareInfoGrid g homeDigit awayDigit).finalQuarters,
        p ∈ (getSquareInfoGrid g homeDigit awayDigit).quarters) ∧
      (∀ p ∈ (getSquareInfoGrid g homeDigit awayDigit).ongoingQuarters,
        p ∈ (getSquareInfoGrid g homeDigit awayDigit).quarters) ∧
      List.Sorted (· < ·) (getSquareInfoGrid g homeDigit awayDigit).quarters ∧
      List.Sorted (· < ·)
        (getSquareInfoGrid g homeDigit awayDigit).finalQuarters ∧
      List.Sorted (· < ·)
        (getSquareInfoGrid g homeDigit awayDigit).ongoingQuarters := by
  intro g hd ad
  obtain ⟨hq, hf, ho⟩ := getSquareInfoGrid_fields g hd ad
  obtain ⟨hc, hho, ht⟩ := getSquareInfoGrid_flags g hd ad
  have hsorted := winningQuartersComp_sorted g hd ad
  refine ⟨?_, ?_, ?_, ?_, ?_, ?_, ?_, ?_, ?_, ?_⟩
  · rw [hc, hq]
    simp [List.length_pos]
  · rw [hho, ho]
    simp [List.length_pos]
  · rw [ht, hq]
    by_cases h : (winningQuartersComp g hd ad).length > 0
    · have : winningQuartersComp g hd ad ≠ [] := by
        simpa [← List.length_pos] using h
      simp [h, this]
    · have : winningQuartersComp g hd ad = [] := by
        simpa [List.length_eq_zero] using h
      simp [h, this]
  · intro hne
    rw [hq] at hne
    rw [ht, hq, if_pos (List.length_pos.mpr hne)]
  · intro p hp
    rw [hq] at hp
    rw [hf, ho]
    by_cases hfin : isQuarterFinalGrid g p = true <;>
      simp [List.mem_filter, hp, hfin]
  · intro p hp
    rw [hf] at hp
    rw [hq]
    exact (List.mem_filter.mp hp).1
  · intro p hp
    rw [ho] at hp
    rw [hq]
    exact (List.mem_filter.mp hp).1
  · rw [hq]
    exact hsorted
  · rw [hf]
    exact List.Pairwise.filter _ hsorted
  · rw [ho]
    exact List.Pairwise.filter _ hsorted

/-- Witness for C9 on the example game: period 2 of coordinate (4, 7) lies
in exactly one finality list, and the label joins the quarters. -/
theorem squareInfoGrid_invariants_witness :
    ((2 ∈ (getSquareInfoGrid exampleGame 4 7).finalQuarters ∧
        2 ∉ (getSquareInfoGrid exampleGame 4 7).ongoingQuarters) ∨
      (2 ∈ (getSquareInfoGrid exampleGame 4 7).ongoingQuarters ∧
        2 ∉ (getSquareInfoGrid exampleGame 4 7).finalQuarters)) ∧
      (getSquareInfoGrid exampleGame 4 7).quarterText =
        some (quartersText (getSquareInfoGrid exampleGame 4 7).quarters) :=
  ⟨(squareInfoGrid_invariants exampleGame 4 7).2.2.2.2.1 2 (by decide),
   (squareInfoGrid_invariants exampleGame 4 7).2.2.2.1 (by decide)⟩

/-- Membership in the whole-grid sweep's output. -/
theorem mem_getAllWinningSquares {g : GameData} {s : WinningSquare} :
    s ∈ getAllWinningSquares g ↔
      s.homeDigit < 10 ∧ s.awayDigit < 10 ∧
        s.info = getSquareInfo g (s.homeDigit : Int) (s.awayDigit : Int) ∧
        s.info.isColored = true := by
  obtain ⟨shd, sad, sinfo⟩ := s
  unfold getAllWinningSquares
  simp only [List.mem_flatMap, List.mem_filterMap, List.mem_range]
  constructor
  · rintro ⟨hd, hhd, ad, had, hsome⟩
    by_cases hcol : (getSquareInfo g (hd : Int) (ad : Int)).isColored = true
    · simp only [hcol, if_true, Option.some.injEq,
        WinningSquare.mk.injEq] at hsome
      obtain ⟨rfl, rfl, rfl⟩ := hsome
      exact ⟨hhd, had, rfl, hcol⟩
    · simp [hcol] at hsome
  · rintro ⟨hhd, had, hinfo, hcol⟩
    refine ⟨shd, hhd, sad, had, ?_⟩
    simp only [← hinfo, hcol, if_true]
  
/-- Membership in the loop-swapped sweep: the same characterization. -/
theorem mem_getAllWinningSquaresSwapped {g : GameData} {s : WinningSquare} :
    s ∈ getAllWinningSquaresSwapped g ↔
      s.homeDigit < 10 ∧ s.awayDigit < 10 ∧
        s.info = getSquareInfo g (s.homeDigit : Int) (s.awayDigit : Int) ∧
        s.info.isColored = true := by
  obtain ⟨shd, sad, sinfo⟩ := s
  unfold getAllWinningSquaresSwapped
  simp only [List.mem_flatMap, List.mem_filterMap, List.mem_range]
  constructor
  · rintro ⟨ad, had, hd, hhd, hsome⟩
    by_cases hcol : (getSquareInfo g (hd : Int) (ad : Int)).isColored = true
    · simp only [hcol, if_true, Option.some.injEq,
        WinningSquare.mk.injEq] at hsome
      obtain ⟨rfl, rfl, rfl⟩ := hsome
      exact ⟨hhd, had, rfl, hcol⟩
    · simp [hcol] at hsome
  · rintro ⟨hhd, had, hinfo, hcol⟩
    refine ⟨sad, had, shd, hhd, ?_⟩
    simp only [← hinfo, hcol, if_true]

/-- C7: the whole-grid sweep considers the full 10×10 digit grid and
returns exactly the coordinates whose resolution is colored, each paired
with that resolution; interchanging the two loops yields the same set of
squares. -/
theorem allWinningSquares_exact :
    (∀ (g : GameData) (s : WinningSquare),
      s ∈ getAllWinningSquares g ↔
        s.homeDigit < 10 ∧ s.awayDigit < 10 ∧
          s.info = getSquareInfo g (s.homeDigit : Int) (s.awayDigit : Int) ∧
          s.info.isColored = true) ∧
    ∀ (g : GameData) (s : WinningSquare),
      s ∈ getAllWinningSquares g ↔ s ∈ getAllWinningSquaresSwapped g := by
  refine ⟨fun g s => mem_getAllWinningSquares, fun g s => ?_⟩
  rw [mem_getAllWinningSquares, mem_getAllWinningSquaresSwapped]

/-- The two `getLastDigit` variants agree on `Int`. -/
theorem getLastDigitComp_eq (n : Int) : getLastDigitComp n = getLastDigit n := by
  rw [getLastDigit_eq_tmod]
  rfl

/-- The components' accumulated winning quarters equal the module's. -/
theorem winningQuartersComp_eq (g : GameData) (hd ad : Int) :
    winningQuartersComp g hd ad = winningQuarters g hd ad := by
  unfold winningQuartersComp winningQuarters
  refine List.filter_congr fun p _ => ?_
  simp only [matchesPeriodComp, matchesPeriod, getLastDigitComp_eq]

/-- The fields of the module `getSquareInfo`, in both branches. -/
theorem getSquareInfo_fields (g : GameData) (hd ad : Int) :
    (getSquareInfo g hd ad).isColored =
        decide ((winningQuarters g hd ad).length > 0) ∧
      (getSquareInfo g hd ad).quarterText =
        (if (winningQuarters g hd ad).length > 0 then
          some (quartersText (winningQuarters g hd ad))
        else none) := by
  unfold getSquareInfo
  by_cases h : (winningQuarters g hd ad).length > 0
  · simp [h]
  · have hnil : winningQuarters g hd ad = [] := by
      simpa [List.length_eq_zero] using h
    simp [h, hnil]

/-- The common fields of the older component's `getSquareInfo`, in both
branches. -/
theorem getSquareInfoLegacy_fields (g : GameData) (hd ad : Int) :
    (getSquareInfoLegacy g hd ad).isColored =
        decide ((winningQuartersComp g hd ad).length > 0) ∧
      (getSquareInfoLegacy g hd ad).quarters = winningQuartersComp g hd ad ∧
      (getSquareInfoLegacy g hd ad).quarterText =
        (if (winningQuartersComp g hd ad).length > 0 then
          some (quartersText (winningQuartersComp g hd ad))
        else none) := by
  unfold getSquareInfoLegacy
  by_cases h : (winningQuartersComp g hd ad).length > 0
  · simp [h]
  · have hnil : winningQuartersComp g hd ad = [] := by
      simpa [List.length_eq_zero] using h
    simp [h, hnil]

/-- C10: the stateless module resolver and the two closure-based component
resolvers agree on their common output — `isColored`, `quarters` and
`quarterText` — for every snapshot and coordinate. -/
theorem resolvers_agree :
    ∀ (g : GameData) (homeDigit awayDigit : Int),
      ((getSquareInfoLegacy g homeDigit awayDigit).isColored =
          (getSquareInfo g homeDigit awayDigit).isColored ∧
        (getSquareInfoLegacy g homeDigit awayDigit).quarters =
          (getSquareInfo g homeDigit awayDigit).quarters ∧
        (getSquareInfoLegacy g homeDigit awayDigit).quarterText =
          (getSquareInfo g homeDigit awayDigit).quarterText) ∧
      ((getSquareInfoGrid g homeDigit awayDigit).isColored =
          (getSquareInfo g homeDigit awayDigit).isColored ∧
        (getSquareInfoGrid g homeDigit awayDigit).quarters =
          (getSquareInfo g homeDigit awayDigit).quarters ∧
        (getSquareInfoGrid g homeDigit awayDigit).quarterText =
          (getSquareInfo g homeDigit awayDigit).quarterText) := by
  intro g hd ad
  have hws := winningQuartersComp_eq g hd ad
  obtain ⟨hmc, hmt⟩ := getSquareInfo_fields g hd ad
  have hmq := getSquareInfo_quarters g hd ad
  obtain ⟨hlc, hlq, hlt⟩ := getSquareInfoLegacy_fields g hd ad
  obtain ⟨hgq, -, -⟩ := getSquareInfoGrid_fields g hd ad
  obtain ⟨hgc, -, hgt⟩ := getSquareInfoGrid_flags g hd ad
  rw [hmc, hmt, hmq, hlc, hlq, hlt, hgq, hgc, hgt, hws]
  exact ⟨⟨rfl, rfl, rfl⟩, rfl, rfl, rfl⟩

/-- On a value the `in` operator accepts, the field loop answers total
property presence of every listed field. -/
theorem checkFields_canIn {v : JSValue} (h : jsCanIn v = true)
    (l : List String) : checkFields v l = .ok (l.all (hasPropB v)) := by
  induction l with
  | nil => rfl
  | cons f rest ih =>
    unfold checkFields hasProp
    rw [if_pos h]
    cases hf : hasPropB v f
    · simp [List.all_cons, hf]
    · simp [List.all_cons, hf, ih]

/-- On a value the `in` operator rejects, the field loop throws at its
first iteration. -/
theorem checkFields_noIn {v : JSValue} (h : jsCanIn v = false) (f : String)
    (rest : List String) : checkFields v (f :: rest) = .error "TypeError" := by
  unfold checkFields hasProp
  simp [h]

/-- C5 (amended): `isValidSnapshot` either returns a Boolean or throws a
TypeError, and `validateThrows` captures exactly when it throws: on a
truthy candidate the `in` operator rejects, or — the three top-level
fields being present — on a `homeTeam` value the `in` operator rejects,
or (the `homeTeam` field checks all passing) on an `awayTeam` value the
`in` operator rejects.  In every other case it returns the Boolean
`specValid`: all required fields present, `currentPeriod` numeric and
non-negative, both scores numeric, both line scores arrays; in particular
`false` on every falsy candidate (`null`, `undefined`, `0`, `""`,
`false`). -/
theorem validateGameData_characterized :
    ∀ g : JSValue,
      validateGameData g =
        if validateThrows g then Except.error "TypeError"
        else Except.ok (specValid g) := by
  intro g
  by_cases htr : truthy g = true
  case neg =>
    have htr' : truthy g = false := Bool.eq_false_iff.mpr htr
    cases g <;>
      simp_all [validateGameData, validateThrows, specValid, truthy,
        hasPropB, jsCanIn]
  case pos =>
    by_cases hcan : jsCanIn g = true
    case neg =>
      have hcan' : jsCanIn g = false := Bool.eq_false_iff.mpr hcan
      have herr := checkFields_noIn hcan' "homeTeam" ["awayTeam", "currentPeriod"]
      simp [validateGameData, validateThrows, htr, hcan', herr]
    case pos =>
      have htop := checkFields_canIn hcan ["homeTeam", "awayTeam", "currentPeriod"]
      simp only [validateGameData, htr, Bool.not_true, Bool.false_eq_true,
        if_false, htop, List.all_cons, List.all_nil, Bool.and_true]
      cases h1 : hasPropB g "homeTeam" with
      | false => simp [validateThrows, specValid, htr, hcan, h1]
      | true =>
      cases h2 : hasPropB g "awayTeam" with
      | false => simp [validateThrows, specValid, htr, hcan, h1, h2]
      | true =>
      cases h3 : hasPropB g "currentPeriod" with
      | false => simp [validateThrows, specValid, htr, hcan, h1, h2, h3]
      | true =>
      by_cases h4 : jsCanIn (getProp g "homeTeam") = true
      case neg =>
        have h4' : jsCanIn (getProp g "homeTeam") = false :=
          Bool.eq_false_iff.mpr h4
        have herr := checkFields_noIn h4' "name" ["score", "lineScore"]
        simp [validateThrows, specValid, htr, hcan, h1, h2, h3, h4', herr]
      case pos =>
        have hhome := checkFields_canIn h4 ["name", "score", "lineScore"]
        simp only [hhome, List.all_cons, List.all_nil, Bool.and_true]
        cases h5 : hasPropB (getProp g "homeTeam") "name" with
        | false => simp [validateThrows, specValid, htr, hcan, h1, h2, h3, h4, h5]
        | true =>
        cases h6 : hasPropB (getProp g "homeTeam") "score" with
        | false =>
          simp [validateThrows, specValid, htr, hcan, h1, h2, h3, h4, h5, h6]
        | true =>
        cases h7 : hasPropB (getProp g "homeTeam") "lineScore" with
        | false =>
          simp [validateThrows, specValid, htr, hcan, h1, h2, h3, h4, h5, h6, h7]
        | true =>
        by_cases h8 : jsCanIn (getProp g "awayTeam") = true
        case neg =>
          have h8' : jsCanIn (getProp g "awayTeam") = false :=
            Bool.eq_false_iff.mpr h8
          have herr := checkFields_noIn h8' "name" ["score", "lineScore"]
          simp [validateThrows, specValid, htr, hcan, h1, h2, h3, h4, h5, h6,
            h7, h8', herr]
        case pos =>
          have haway := checkFields_canIn h8 ["name", "score", "lineScore"]
          simp only [haway, List.all_cons, List.all_nil, Bool.and_true]
          cases h9 : hasPropB (getProp g "awayTeam") "name" with
          | false =>
            simp [validateThrows, specValid, htr, hcan, h1, h2, h3, h4, h5,
              h6, h7, h8, h9]
          | true =>
          cases h10 : hasPropB (getProp g "awayTeam") "score" with
          | false =>
            simp [validateThrows, specValid, htr, hcan, h1, h2, h3, h4, h5,
              h6, h7, h8, h9, h10]
          | true =>
          cases h11 : hasPropB (getProp g "awayTeam") "lineScore" with
          | false =>
            simp [validateThrows, specValid, htr, hcan, h1, h2, h3, h4, h5,
              h6, h7, h8, h9, h10, h11]
          | true =>
            have hth : validateThrows g = false := by
              simp [validateThrows, hcan, h1, h2, h3, h4, h5, h6, h7, h8]
            rw [hth]
            simp only [Bool.false_eq_true, if_false, specValid, h1, h2, h3,
              h5, h6, h7, h9, h10, h11, Bool.true_and]
            cases hc1 : typeofJS (getProp g "currentPeriod") == "number" <;>
            cases hc2 : numLtZero (getProp g "currentPeriod") <;>
            cases hc3 : typeofJS (getProp (getProp g "homeTeam") "score")
                == "number" <;>
            cases hc4 : typeofJS (getProp (getProp g "awayTeam") "score")
                == "number" <;>
            cases hc5 : isArrayJS (getProp (getProp g "homeTeam") "lineScore") <;>
            cases hc6 : isArrayJS (getProp (getProp g "awayTeam") "lineScore") <;>
              simp [bne, hc1, hc2, hc3, hc4, hc5, hc6]

/-- C5 counterexample: on the truthy primitive candidate `5` the validator
does not return a Boolean — evaluating `'homeTeam' in gameData` throws a
TypeError, refuting the claim that every candidate yields a Boolean
without throwing. -/
theorem validateGameData_throws_on_primitive :
    validateGameData (JSValue.number 5) = Except.error "TypeError" := rfl
